import Mathlib

/-!
Shallow embedding of the regelrecht-upload portal (Rust, axum + sqlx) and
proofs about its specification claims.

Modelling conventions:
* Rust `String`/`&str` values are embedded as `List Char` (`Str` below).
  Byte lengths and character counts coincide on the ASCII data these
  validators accept; divergences are noted at the definitions they touch.
* The relational database is a record of lists of rows; a single SQL
  statement becomes a pure function on that record (`UPDATE ... WHERE` is a
  `List.map` guarded by the `WHERE` predicate, `SELECT ... fetch_optional`
  is `List.find?`).
* `NOW()` is an explicit `now : Int` parameter (seconds).
* Handlers are pure functions from the request data, the database and an
  environment record (holding the generated ids and the outcomes of
  operations whose success is decided outside the embedded logic, such as
  filesystem writes) to a response together with the updated database.
* Cryptographic primitives (SHA-256 session-token hashing, Argon2 password
  verification) are never inspected by the handler control flow, so they
  are taken as explicit function parameters of the handlers that use
  them.
-/

/-- Rust strings are embedded as lists of characters. -/
abbrev Str := List Char

deriving instance DecidableEq for Except

/-- Model of Rust `str::trim`: drop whitespace from both ends. -/
def strTrim (s : Str) : Str :=
  ((s.dropWhile Char.isWhitespace).reverse.dropWhile Char.isWhitespace).reverse

/-- Model of Rust `str::split(sep)`: split at every occurrence of `sep`. -/
def splitOnChar (sep : Char) : Str → List Str
  | [] => [[]]
  | c :: rest =>
    if c = sep then [] :: splitOnChar sep rest
    else
      match splitOnChar sep rest with
      | [] => [[c]]
      | r :: rs => (c :: r) :: rs

/-- Model of Rust `str::contains(pat)`: substring search. -/
def strContains (hay needle : Str) : Bool :=
  hay.tails.any (fun t => List.isPrefixOf needle t)

-- ===========================================================================
-- src/models/mod.rs : enums and row types
-- ===========================================================================

inductive SubmissionStatus where
  | draft
  | submitted
  | under_review
  | approved
  | rejected
  | forwarded
  | completed
deriving DecidableEq, Repr

inductive DocumentCategory where
  | formal_law
  | circular
  | implementation_policy
  | work_instruction
deriving DecidableEq, Repr

inductive DocumentClassification where
  | public
  | claude_allowed
  | restricted
deriving DecidableEq, Repr

structure Submission where
  id : Nat
  slug : Str
  submitter_name : Str
  submitter_email : Option Str
  organization : Str
  organization_department : Option Str
  status : SubmissionStatus
  notes : Option Str
  created_at : Int
  updated_at : Int
  submitted_at : Option Int
  retention_expiry_date : Int
deriving DecidableEq, Repr

structure CreateSubmission where
  submitter_name : Str
  submitter_email : Option Str
  organization : Str
  organization_department : Option Str
deriving DecidableEq, Repr

structure UpdateSubmission where
  submitter_name : Option Str
  submitter_email : Option Str
  organization : Option Str
  organization_department : Option Str
  notes : Option Str
deriving DecidableEq, Repr

structure Document where
  id : Nat
  submission_id : Nat
  category : DocumentCategory
  classification : DocumentClassification
  external_url : Option Str
  external_title : Option Str
  filename : Option Str
  original_filename : Option Str
  file_path : Option Str
  file_size : Option Nat
  mime_type : Option Str
  description : Option Str
  created_at : Int
deriving DecidableEq, Repr

structure CreateFormalLaw where
  external_url : Str
  external_title : Option Str
  description : Option Str
deriving DecidableEq, Repr

structure AdminUser where
  id : Nat
  username : Str
  email : Str
  password_hash : Str
  display_name : Option Str
  is_active : Bool
  created_at : Int
  last_login_at : Option Int
deriving DecidableEq, Repr

structure AdminSession where
  id : Nat
  admin_user_id : Nat
  token_hash : Str
  expires_at : Int
  created_at : Int
  ip_address : Option Str
  user_agent : Option Str
deriving DecidableEq, Repr

structure CalendarSlot where
  id : Nat
  slot_start : Int
  slot_end : Int
  is_available : Bool
  booked_by_submission : Option Nat
  created_by : Option Nat
  notes : Option Str
  created_at : Int
deriving DecidableEq, Repr

structure LoginRequest where
  username : Str
  password : Str
deriving DecidableEq, Repr

/-- One row of the `rate_limit_attempts` table. -/
structure RateLimitAttempt where
  ip_address : Str
  endpoint : Str
  attempted_at : Int
deriving DecidableEq, Repr

/-- One row of the append-only `audit_log` table (fields used by the
embedded handlers). -/
structure AuditLogEntry where
  action : String
  entity_type : String
  entity_id : Option Nat
  actor_type : String
  actor_id : Option Nat
deriving DecidableEq, Repr

/-- The shared relational state: one list of rows per table. -/
structure Database where
  submissions : List Submission
  documents : List Document
  calendar_slots : List CalendarSlot
  admin_users : List AdminUser
  admin_sessions : List AdminSession
  rate_limit_attempts : List RateLimitAttempt
  audit_log : List AuditLogEntry
deriving DecidableEq, Repr

-- ===========================================================================
-- src/validation/mod.rs
-- ===========================================================================

inductive ValidationError where
  | required (field : Str)
  | too_long (field : Str) (max : Nat)
  | too_short (field : Str) (min : Nat)
  | invalid_email
  | invalid_url
  | invalid_slug
  | restricted_document
  | invalid_file_type (mime_type : Str)
  | file_too_large (max_mb : Nat)
deriving DecidableEq, Repr

/-- Model of `is_valid_email`: split on the at-sign into exactly two parts;
the local part and domain must be nonempty, the domain must contain a dot
and have length greater than 2. -/
def is_valid_email (email : Str) : Bool :=
  match splitOnChar '@' email with
  | [localPart, domain] =>
    !localPart.isEmpty && !domain.isEmpty && domain.contains '.'
      && decide (domain.length > 2)
  | _ => false

/-- Model of `validate_create_submission`. -/
def validate_create_submission (input : CreateSubmission) :
    Except ValidationError Unit :=
  if (strTrim input.submitter_name).isEmpty then
    .error (.required ("submitter_name".data))
  else if decide (input.submitter_name.length > 255) then
    .error (.too_long ("submitter_name".data) 255)
  else if (strTrim input.organization).isEmpty then
    .error (.required ("organization".data))
  else if decide (input.organization.length > 255) then
    .error (.too_long ("organization".data) 255)
  else if (match input.submitter_email with
           | some email => !email.isEmpty && !is_valid_email email
           | none => false) then
    .error .invalid_email
  else if (match input.organization_department with
           | some dept => decide (dept.length > 255)
           | none => false) then
    .error (.too_long ("organization_department".data) 255)
  else
    .ok ()

/-- Model of `validate_external_url`.  The source additionally logs a warning
when the URL is not from wetten.overheid.nl; that branch has no effect on
the result and is omitted. -/
def validate_external_url (url : Str) : Except ValidationError Unit :=
  if (strTrim url).isEmpty then
    .error (.required ("external_url".data))
  else if !(List.isPrefixOf ("https://".data) url)
      && !(List.isPrefixOf ("http://".data) url) then
    .error .invalid_url
  else if decide (url.length > 2048) then
    .error (.too_long ("external_url".data) 2048)
  else
    .ok ()

/-- Model of `validate_slug`.  `Char.isLower`/`Char.isDigit` are the ASCII
range checks, exactly like Rust `is_ascii_lowercase`/`is_ascii_digit`.
The Rust length check counts bytes; on the strings this validator can
accept every character is ASCII, where byte count and character count
agree, and any string on which they differ is rejected by both. -/
def validate_slug (slug : Str) : Except ValidationError Unit :=
  if slug.isEmpty || decide (slug.length > 50) then
    .error .invalid_slug
  else
    let is_valid := slug.all (fun c => c.isLower || c.isDigit || c = '-')
    if !is_valid || slug.head? == some '-' || slug.getLast? == some '-' then
      .error .invalid_slug
    else
      .ok ()

/-- Model of `validate_classification_for_upload`. -/
def validate_classification_for_upload
    (classification : DocumentClassification) : Except ValidationError Unit :=
  if classification = DocumentClassification.restricted then
    .error .restricted_document
  else
    .ok ()

/-- The MIME allow-list from `validate_file_upload`. -/
def allowed_types : List Str :=
  [ "application/pdf".data
  , "application/msword".data
  , "application/vnd.openxmlformats-officedocument.wordprocessingml.document".data
  , "application/vnd.ms-excel".data
  , "application/vnd.openxmlformats-officedocument.spreadsheetml.sheet".data
  , "application/vnd.ms-powerpoint".data
  , "application/vnd.openxmlformats-officedocument.presentationml.presentation".data
  , "application/vnd.oasis.opendocument.text".data
  , "application/rtf".data
  , "text/plain".data
  , "text/markdown".data
  , "text/csv".data ]

/-- Model of `validate_file_upload`. -/
def validate_file_upload (mime_type : Str) (file_size max_size_bytes : Nat) :
    Except ValidationError Unit :=
  if file_size > max_size_bytes then
    .error (.file_too_large (max_size_bytes / (1024 * 1024)))
  else if !(allowed_types.contains mime_type) then
    .error (.invalid_file_type mime_type)
  else
    .ok ()

/-- The blocklist `DANGEROUS_EXTENSIONS`. -/
def DANGEROUS_EXTENSIONS : List Str :=
  [ ".php".data, ".phtml".data, ".php3".data, ".php4".data, ".php5".data
  , ".php7".data, ".phps".data
  , ".asp".data, ".aspx".data, ".jsp".data, ".jspx".data
  , ".cgi".data, ".pl".data, ".py".data, ".pyc".data, ".pyo".data
  , ".rb".data, ".erb".data
  , ".exe".data, ".bat".data, ".cmd".data, ".com".data, ".msi".data
  , ".dll".data, ".sh".data, ".bash".data, ".zsh".data, ".ksh".data
  , ".js".data, ".jsx".data, ".ts".data, ".tsx".data, ".mjs".data
  , ".htaccess".data, ".htpasswd".data
  , ".jar".data, ".war".data, ".ear".data, ".class".data ]

/-- The loop body of `validate_filename_extensions`: find the first
blocklisted extension the lowercased filename ends with, or contains
immediately followed by a dot. -/
def find_dangerous (lower : Str) : List Str → Option Str
  | [] => none
  | ext :: rest =>
    if List.isSuffixOf ext lower then some ext
    else if strContains lower (ext ++ ['.']) then some ext
    else find_dangerous lower rest

/-- Model of `validate_filename_extensions`.  `Char.toLower` is the ASCII
case fold, as `str::to_lowercase` is on the ASCII blocklist patterns. -/
def validate_filename_extensions (filename : Str) :
    Except ValidationError Unit :=
  let lower := filename.map Char.toLower
  match find_dangerous lower DANGEROUS_EXTENSIONS with
  | some ext => .error (.invalid_file_type ext)
  | none => .ok ()

-- ===========================================================================
-- Spec-side definitions (written from the specification text, for
-- refinement-style claims)
-- ===========================================================================

/-- A character of the class `[a-z0-9]` from the spec regex. -/
def slug_char (c : Char) : Bool := c.isLower || c.isDigit

/-- The language of the spec regex `[a-z0-9]([a-z0-9-]*[a-z0-9])?` with
anchors: a first character in `[a-z0-9]`, optionally followed by a block of
characters in `[a-z0-9-]` whose final character is again in `[a-z0-9]`. -/
def slugRegex (s : Str) : Bool :=
  match s with
  | [] => false
  | c :: rest =>
    slug_char c &&
      (rest.isEmpty ||
        (rest.dropLast.all (fun d => slug_char d || d = '-') &&
          match rest.getLast? with
          | some d => slug_char d
          | none => false))

-- ===========================================================================
-- Supporting lemmas on the validators
-- ===========================================================================

theorem strContains_iff (hay needle : Str) :
    strContains hay needle = true ↔ needle <:+: hay := by
  unfold strContains
  rw [List.any_eq_true]
  constructor
  · rintro ⟨t, ht, hp⟩
    exact List.infix_iff_prefix_suffix.mpr
      ⟨t, List.isPrefixOf_iff_prefix.mp hp, (List.mem_tails _ _).mp ht⟩
  · intro h
    obtain ⟨t, hp, hs⟩ := List.infix_iff_prefix_suffix.mp h
    exact ⟨t, (List.mem_tails _ _).mpr hs, List.isPrefixOf_iff_prefix.mpr hp⟩

theorem find_dangerous_eq_none_iff (lower : Str) (exts : List Str) :
    find_dangerous lower exts = none ↔
      ∀ ext ∈ exts, ¬ ext <:+ lower ∧ ¬ (ext ++ ['.']) <:+: lower := by
  induction exts with
  | nil => simp [find_dangerous]
  | cons e rest ih =>
    unfold find_dangerous
    by_cases h1 : List.isSuffixOf e lower
    · simp only [h1, if_true]
      simp only [List.isSuffixOf_iff_suffix] at h1
      simp [h1]
    · by_cases h2 : strContains lower (e ++ ['.'])
      · simp only [h1, h2, if_true, if_false, Bool.false_eq_true]
        rw [strContains_iff] at h2
        simp [h2]
      · simp only [h1, h2, if_false, Bool.false_eq_true]
        rw [ih]
        have he1 : ¬ e <:+ lower := fun hc =>
          h1 (List.isSuffixOf_iff_suffix.mpr hc)
        have he2 : ¬ (e ++ ['.']) <:+: lower := fun hc =>
          h2 ((strContains_iff _ _).mpr hc)
        simp [he1, he2]

theorem validate_filename_extensions_ok_iff (filename : Str) :
    validate_filename_extensions filename = .ok () ↔
      ∀ ext ∈ DANGEROUS_EXTENSIONS,
        ¬ ext <:+ (filename.map Char.toLower) ∧
        ¬ (ext ++ ['.']) <:+: (filename.map Char.toLower) := by
  unfold validate_filename_extensions
  rw [← find_dangerous_eq_none_iff]
  cases h : find_dangerous (filename.map Char.toLower) DANGEROUS_EXTENSIONS <;>
    simp [h]

theorem validate_slug_ok_iff (s : Str) :
    validate_slug s = .ok () ↔
      s ≠ [] ∧ s.length ≤ 50 ∧
      (∀ c ∈ s, (c.isLower || c.isDigit || c = '-') = true) ∧
      s.head? ≠ some '-' ∧ s.getLast? ≠ some '-' := by
  unfold validate_slug
  rcases hemp : s.isEmpty with _ | _ <;>
  rcases hlen : decide (s.length > 50) with _ | _ <;>
  rcases hall : s.all (fun c => c.isLower || c.isDigit || c = '-') with _ | _ <;>
  rcases hh : s.head? == some '-' with _ | _ <;>
  rcases hl : s.getLast? == some '-' with _ | _ <;>
    simp_all [List.isEmpty_iff, List.all_eq_true, List.all_eq_false,
      decide_eq_true_eq, decide_eq_false_iff_not, beq_iff_eq]

theorem slug_char_ne_hyphen {c : Char} (h : slug_char c = true) : c ≠ '-' := by
  intro he
  subst he
  simp [slug_char] at h

theorem allowed_iff_slug_char {c : Char} :
    ((c.isLower || c.isDigit || c = '-') = true ∧ c ≠ '-') ↔ slug_char c = true := by
  simp only [slug_char, Bool.or_eq_true, decide_eq_true_eq]
  constructor
  · rintro ⟨h1, h2⟩
    tauto
  · intro h
    refine ⟨by tauto, fun he => ?_⟩
    subst he
    revert h
    decide

theorem allowed_char_iff {x : Char} :
    (x.isLower || x.isDigit || x = '-') = true ↔ (slug_char x || x = '-') = true := by
  simp only [slug_char, Bool.or_eq_true, decide_eq_true_eq]

/-- The code-side acceptance condition coincides with the spec regex
language, bounded at 50 characters. -/
theorem validate_slug_eq_regex (s : Str) :
    validate_slug s = .ok () ↔ (slugRegex s = true ∧ s.length ≤ 50) := by
  rw [validate_slug_ok_iff]
  cases s with
  | nil => simp [slugRegex]
  | cons c rest =>
    rcases List.eq_nil_or_concat rest with hrest | ⟨l, d, hrest⟩
    · subst hrest
      simp only [slugRegex, List.isEmpty_nil, Bool.true_or, Bool.and_true,
        List.head?_cons, List.getLast?_singleton, List.mem_singleton,
        ne_eq, List.length_singleton, forall_eq]
      constructor
      · rintro ⟨-, hlen, hall, hh, -⟩
        exact ⟨allowed_iff_slug_char.mp ⟨hall, fun he => hh (by simp [he])⟩, hlen⟩
      · rintro ⟨hreg, hlen⟩
        obtain ⟨h1, h2⟩ := allowed_iff_slug_char.mpr hreg
        exact ⟨by simp, hlen, h1, by simpa using h2, by simpa using h2⟩
    · subst hrest
      simp only [List.concat_eq_append]
      have hgl : (c :: (l ++ [d])).getLast? = some d := by
        rw [show c :: (l ++ [d]) = (c :: l) ++ [d] by simp]
        exact List.getLast?_concat _
      constructor
      · rintro ⟨-, hlen, hall, hh, hl⟩
        rw [hgl] at hl
        have hd : d ≠ '-' := fun he => hl (by rw [he])
        have hc : c ≠ '-' := fun he => hh (by simp [he])
        obtain ⟨hcs, -⟩ :=
          And.intro (allowed_iff_slug_char.mp ⟨hall c (by simp), hc⟩) True.intro
        obtain ⟨hds, -⟩ :=
          And.intro (allowed_iff_slug_char.mp ⟨hall d (by simp), hd⟩) True.intro
        refine ⟨?_, hlen⟩
        simp only [slugRegex, hcs, Bool.true_and, List.dropLast_concat,
          List.getLast?_concat, hds, Bool.and_true, Bool.or_eq_true]
        right
        rw [List.all_eq_true]
        intro x hx
        have hx2 : x ∈ c :: (l ++ [d]) := by
          simp only [List.mem_cons, List.mem_append, List.mem_singleton]
          exact Or.inr (Or.inl hx)
        exact allowed_char_iff.mp (hall x hx2)
      · rintro ⟨hreg, hlen⟩
        simp only [slugRegex, Bool.and_eq_true, List.dropLast_concat,
          List.getLast?_concat, Bool.or_eq_true, List.all_eq_true,
          List.isEmpty_eq_true, List.append_eq_nil] at hreg
        obtain ⟨hcs, hrest2⟩ := hreg
        rcases hrest2 with h | ⟨hmid, hds⟩
        · exact absurd h.2 (by simp)
        · obtain ⟨hc1, hc2⟩ := allowed_iff_slug_char.mpr hcs
          obtain ⟨hd1, hd2⟩ := allowed_iff_slug_char.mpr hds
          refine ⟨by simp, hlen, ?_, by simpa using hc2, ?_⟩
          · intro x hx
            rcases List.mem_cons.mp hx with hx | hx
            · subst hx; exact hc1
            · rcases List.mem_append.mp hx with hx | hx
              · refine allowed_char_iff.mpr ?_
                rw [Bool.or_eq_true]
                exact hmid x hx
              · rw [List.mem_singleton] at hx
                subst hx; exact hd1
          · rw [hgl]
            simpa using hd2

/-- `validate_slug` returns either success or the invalid-slug error. -/
theorem validate_slug_shape (s : Str) :
    validate_slug s = .ok () ∨ validate_slug s = .error .invalid_slug := by
  unfold validate_slug
  split
  · exact .inr rfl
  · dsimp only
    split
    · exact .inr rfl
    · exact .inl rfl

-- ===========================================================================
-- src/handlers/auth.rs : helpers
-- ===========================================================================

/-- The headers an embedded handler inspects.  A field is `some v` when the
header is present with (UTF-8 readable) value `v`. -/
structure HeaderMapM where
  x_forwarded_for : Option Str
  x_real_ip : Option Str
  cookie : Option Str
  user_agent : Option Str
deriving Repr

/-- Model of `get_client_ip` (src/handlers/auth.rs:392-410): the first
comma-separated entry of `X-Forwarded-For` when present, else `X-Real-IP`,
else the literal string `unknown`.  The function receives only the header
map; it has no access to the socket peer address or to the configured
trusted-proxy prefixes. -/
def get_client_ip (headers : HeaderMapM) : Str :=
  match headers.x_forwarded_for with
  | some xff => strTrim (xff.takeWhile (fun c => c ≠ ','))
  | none =>
    match headers.x_real_ip with
    | some ip => ip
    | none => "unknown".data

/-- The admin session cookie name. -/
def SESSION_COOKIE : Str := "rr_admin_session".data

/-- Model of Rust `str::strip_prefix`. -/
def stripPrefixQ (pre s : Str) : Option Str :=
  if List.isPrefixOf pre s then some (s.drop pre.length) else none

/-- Model of `extract_session_token`: scan the semicolon-separated cookie
header for `rr_admin_session=...` and return the value. -/
def extract_session_token (headers : HeaderMapM) : Option Str :=
  match headers.cookie with
  | none => none
  | some cookieHeader =>
    (splitOnChar ';' cookieHeader).findSome?
      (fun c => stripPrefixQ (SESSION_COOKIE ++ ['=']) (strTrim c))

/-- Rate limit: max attempts per IP per hour (`MAX_LOGIN_ATTEMPTS`). -/
def MAX_LOGIN_ATTEMPTS : Int := 10

/-- Rate limit: max submission creations per IP per hour
(`MAX_SUBMISSION_ATTEMPTS`). -/
def MAX_SUBMISSION_ATTEMPTS : Int := 20

/-- The SQL count in `check_rate_limit_with_max`: rows of
`rate_limit_attempts` for this ip and endpoint with
`attempted_at > NOW() - INTERVAL 1 hour`. -/
def sqlCountRecent (attempts : List RateLimitAttempt) (ip ep : Str)
    (now : Int) : Int :=
  ((attempts.filter (fun a =>
      a.ip_address == ip && a.endpoint == ep
        && decide (a.attempted_at > now - 3600))).length : Int)

/-- Model of `check_rate_limit_with_max`: the count query either returns a
count or fails; `unwrap_or(0)` turns a failure into count 0; the request is
allowed iff the count is below the threshold. -/
def check_rate_limit_with_max (query_result : Except Unit Int)
    (max_attempts : Int) : Bool :=
  let count : Int :=
    match query_result with
    | .ok c => c
    | .error _ => 0
  decide (count < max_attempts)

/-- Model of `check_rate_limit`. -/
def check_rate_limit (query_result : Except Unit Int) : Bool :=
  check_rate_limit_with_max query_result MAX_LOGIN_ATTEMPTS

/-- Model of `record_attempt`: append one row to `rate_limit_attempts`. -/
def record_attempt (db : Database) (ip ep : Str) (now : Int) : Database :=
  { db with rate_limit_attempts :=
      db.rate_limit_attempts ++ [⟨ip, ep, now⟩] }

/-- Model of `validate_admin_session` (src/handlers/auth.rs:242-282).
`hash_token` (SHA-256) is passed as a function parameter.  Every failure,
in particular both an expired/unknown session and a deactivated user,
returns `none`. -/
def validate_admin_session (hash_token : Str → Str) (db : Database)
    (now : Int) (headers : HeaderMapM) : Option AdminUser :=
  match extract_session_token headers with
  | none => none
  | some token =>
    let token_hash := hash_token token
    match db.admin_sessions.find? (fun s =>
        s.token_hash == token_hash && decide (s.expires_at > now)) with
    | none => none
    | some session =>
      db.admin_users.find? (fun u =>
        u.id == session.admin_user_id && u.is_active)

-- ===========================================================================
-- src/handlers/middleware.rs : require_admin
-- ===========================================================================

/-- The outcome of the `require_admin` middleware.  The database-error
branches of the source return 500; in this reliable-database model the
queries always succeed, so `server_error` is never produced. -/
inductive RequireAdminResult where
  | unauthorized (error : String)
  | server_error (error : String)
  | proceed (user : AdminUser)
deriving DecidableEq, Repr

/-- Model of `require_admin` (src/handlers/middleware.rs:16-96). -/
def require_admin (hash_token : Str → Str) (db : Database)
    (now : Int) (headers : HeaderMapM) : RequireAdminResult :=
  match extract_session_token headers with
  | none => .unauthorized ("Not authenticated")
  | some token =>
    let token_hash := hash_token token
    match db.admin_sessions.find? (fun s =>
        s.token_hash == token_hash && decide (s.expires_at > now)) with
    | none => .unauthorized ("Session expired or invalid")
    | some session =>
      match db.admin_users.find? (fun u =>
          u.id == session.admin_user_id && u.is_active) with
      | none => .unauthorized ("User not found or inactive")
      | some user => .proceed user

/-- The HTTP status carried by a `require_admin` outcome. -/
def require_admin_status : RequireAdminResult → Nat
  | .unauthorized _ => 401
  | .server_error _ => 500
  | .proceed _ => 200

-- ===========================================================================
-- Handler responses
-- ===========================================================================

/-- The error payload of a response: either a formatted validation error
(`e.to_string()`) or a literal message from the source. -/
inductive RespError where
  | validation (e : ValidationError)
  | msg (s : String)
deriving DecidableEq, Repr

/-- A response: HTTP status plus the error of the uniform envelope
(`none` on success). -/
structure Resp where
  status : Nat
  error : Option RespError
deriving DecidableEq, Repr

-- ===========================================================================
-- src/handlers/auth.rs : admin_login
-- ===========================================================================

/-- Environment of one `admin_login` call: the cryptographic primitives,
the freshly generated token, and the generated session row id. -/
structure AdminLoginEnv where
  parse_hash_ok : Str → Bool
  verify_password : Str → Str → Bool
  hash_token : Str → Str
  token : Str
  session_id : Nat
  session_insert_ok : Bool

/-- Model of `admin_login` (src/handlers/auth.rs:34-168). -/
def admin_login (env : AdminLoginEnv) (db : Database) (now : Int)
    (headers : HeaderMapM) (input : LoginRequest) : Resp × Database :=
  let client_ip := get_client_ip headers
  if !(check_rate_limit
      (.ok (sqlCountRecent db.rate_limit_attempts client_ip ("login".data) now))) then
    (⟨429, some (.msg ("Too many login attempts. Please try again later."))⟩, db)
  else
    let db1 := record_attempt db client_ip ("login".data) now
    match db1.admin_users.find? (fun u =>
        u.username == input.username && u.is_active) with
    | none =>
      (⟨401, some (.msg ("Invalid username or password"))⟩, db1)
    | some user =>
      if !(env.parse_hash_ok user.password_hash) then
        (⟨500, some (.msg ("Authentication error"))⟩, db1)
      else if !(env.verify_password input.password user.password_hash) then
        (⟨401, some (.msg ("Invalid username or password"))⟩, db1)
      else if !env.session_insert_ok then
        (⟨500, some (.msg ("Failed to create session"))⟩, db1)
      else
        let session : AdminSession :=
          { id := env.session_id
          , admin_user_id := user.id
          , token_hash := env.hash_token env.token
          , expires_at := now + 8 * 3600
          , created_at := now
          , ip_address := some client_ip
          , user_agent := headers.user_agent.map (List.take 500) }
        let db2 := { db1 with admin_sessions := db1.admin_sessions ++ [session] }
        let upd := fun (u : AdminUser) =>
          if u.id == user.id then { u with last_login_at := some now } else u
        let db3 := { db2 with admin_users := db2.admin_users.map upd }
        let db4 := { db3 with audit_log := db3.audit_log ++
            [⟨"admin_login", "admin_user", some user.id, "admin", some user.id⟩] }
        (⟨200, none⟩, db4)

-- ===========================================================================
-- src/handlers/submissions.rs
-- ===========================================================================

/-- SQL `COALESCE(new, old)` for a nullable column. -/
def coalesce (a b : Option Str) : Option Str :=
  match a with
  | some v => some v
  | none => b

/-- Model of `get_submission_by_slug`. -/
def get_submission_by_slug (db : Database) (slug : Str) : Option Submission :=
  db.submissions.find? (fun s => s.slug == slug)

/-- Environment of one `create_submission` call: the generated slug, the
generated row id, the schema-side retention expiry default, and whether the
INSERT succeeds. -/
structure CreateSubmissionEnv where
  slug : Str
  new_id : Nat
  retention_expiry : Int
  insert_ok : Bool
deriving Repr

/-- Model of `create_submission` (src/handlers/submissions.rs:40-123).
The inserted row takes status `draft` and its timestamps from the schema
defaults. -/
def create_submission (env : CreateSubmissionEnv) (db : Database) (now : Int)
    (headers : HeaderMapM) (input : CreateSubmission) : Resp × Database :=
  let client_ip := get_client_ip headers
  if !(check_rate_limit_with_max
      (.ok (sqlCountRecent db.rate_limit_attempts client_ip
        ("create_submission".data) now))
      MAX_SUBMISSION_ATTEMPTS) then
    (⟨429, some (.msg ("Too many submissions. Please try again later."))⟩, db)
  else
    let db1 := record_attempt db client_ip ("create_submission".data) now
    match validate_create_submission input with
    | .error e => (⟨400, some (.validation e)⟩, db1)
    | .ok () =>
      if !env.insert_ok then
        (⟨500, some (.msg ("Failed to create submission"))⟩, db1)
      else
        let sub : Submission :=
          { id := env.new_id
          , slug := env.slug
          , submitter_name := input.submitter_name
          , submitter_email := input.submitter_email
          , organization := input.organization
          , organization_department := input.organization_department
          , status := .draft
          , notes := none
          , created_at := now
          , updated_at := now
          , submitted_at := none
          , retention_expiry_date := env.retention_expiry }
        let db2 := { db1 with submissions := db1.submissions ++ [sub] }
        let db3 := { db2 with audit_log := db2.audit_log ++
            [⟨"submission_created", "submission", some sub.id, "applicant", none⟩] }
        (⟨201, none⟩, db3)

/-- Model of `update_submission` (src/handlers/submissions.rs:186-271). -/
def update_submission (db : Database) (slug : Str) (input : UpdateSubmission) :
    Resp × Database :=
  match validate_slug slug with
  | .error e => (⟨400, some (.validation e)⟩, db)
  | .ok () =>
    match db.submissions.find? (fun s => s.slug == slug) with
    | none => (⟨404, some (.msg ("Submission not found"))⟩, db)
    | some submission =>
      if submission.status ≠ SubmissionStatus.draft then
        (⟨400,
          some (.msg ("Cannot update submission that is not in draft status"))⟩,
          db)
      else
        let apply := fun (s : Submission) =>
          { s with
            submitter_name := input.submitter_name.getD s.submitter_name
          , submitter_email := coalesce input.submitter_email s.submitter_email
          , organization := input.organization.getD s.organization
          , organization_department :=
              coalesce input.organization_department s.organization_department
          , notes := coalesce input.notes s.notes }
        let upd := fun (s : Submission) => if s.slug == slug then apply s else s
        let db1 := { db with submissions := db.submissions.map upd }
        let db2 := { db1 with audit_log := db1.audit_log ++
            [⟨"submission_updated", "submission", some (apply submission).id,
              "applicant", none⟩] }
        (⟨200, none⟩, db2)

/-- Model of `sanitize_filename`: take the basename after the last slash or
backslash, keep ASCII alphanumerics, hyphen, underscore and dot, collapse
everything else to underscore, strip leading dots then surrounding
underscores, and fall back to `upload` when nothing remains. -/
def sanitize_filename (filename : Str) : Str :=
  let basename := (filename.reverse.takeWhile
      (fun c => c ≠ '/' && c ≠ '\\')).reverse
  let mapped := basename.map (fun c =>
    if c.isAlphanum || c = '-' || c = '_' then c
    else if c = '.' then '.'
    else '_')
  let s1 := mapped.dropWhile (fun c => c = '.')
  let s2 := ((s1.dropWhile (fun c => c = '_')).reverse.dropWhile
      (fun c => c = '_')).reverse
  if s2.isEmpty then "upload".data else s2

/-- The query parameters of the upload endpoint. -/
structure UploadDocumentQuery where
  category : DocumentCategory
  classification : DocumentClassification
  description : Option Str
deriving DecidableEq, Repr

/-- One multipart field, as the handler reads it. -/
structure MultipartFile where
  file_name : Option Str
  content_type : Option Str
  data_len : Nat
deriving DecidableEq, Repr

/-- The outcome of `multipart.next_field()`. -/
inductive MultipartOutcome where
  | field (f : MultipartFile)
  | empty
  | parse_error
deriving DecidableEq, Repr

/-- Environment of one `upload_document` call: the uploader-session oracle
(the id of the submission the presented session is valid for, if any), the
multipart outcome, whether reading the body bytes succeeds, the generated
document id, and the outcomes of the filesystem and INSERT operations. -/
structure UploadEnv where
  uploader_session : Option Nat
  multipart : MultipartOutcome
  read_ok : Bool
  doc_id : Nat
  dir_ok : Bool
  write_ok : Bool
  insert_ok : Bool
deriving Repr

/-- The result of `upload_document`: the response status, the database, and
the filesystem effects performed during the call. -/
structure UploadResult where
  status : Nat
  db : Database
  files_written : List Str
  files_removed : List Str
deriving DecidableEq, Repr

/-- String form of the generated document id, standing in for the display
form of `Uuid::new_v4()`. -/
def uuidStr (n : Nat) : Str := Nat.toDigits 10 n

/-- Model of `upload_document` (src/handlers/submissions.rs:338-592). -/
def upload_document (db : Database) (upload_dir : Str) (max_upload_size : Nat)
    (now : Int) (slug : Str) (query : UploadDocumentQuery) (env : UploadEnv) :
    UploadResult :=
  match validate_slug slug with
  | .error _ => ⟨400, db, [], []⟩
  | .ok () =>
  match validate_classification_for_upload query.classification with
  | .error _ => ⟨400, db, [], []⟩
  | .ok () =>
  if query.category = DocumentCategory.formal_law then
    ⟨400, db, [], []⟩
  else
  match get_submission_by_slug db slug with
  | none => ⟨404, db, [], []⟩
  | some submission =>
  if submission.status ≠ SubmissionStatus.draft
      && !(env.uploader_session == some submission.id) then
    ⟨401, db, [], []⟩
  else
  match env.multipart with
  | .parse_error => ⟨400, db, [], []⟩
  | .empty => ⟨400, db, [], []⟩
  | .field f =>
  let original_filename := f.file_name.getD ("unknown".data)
  let content_type := f.content_type.getD ("application/octet-stream".data)
  if !env.read_ok then
    ⟨400, db, [], []⟩
  else
  match validate_file_upload content_type f.data_len max_upload_size with
  | .error _ => ⟨400, db, [], []⟩
  | .ok () =>
  match validate_filename_extensions original_filename with
  | .error _ => ⟨400, db, [], []⟩
  | .ok () =>
  let safe_filename := sanitize_filename original_filename
  let storage_filename := uuidStr env.doc_id ++ ('_' :: safe_filename)
  let submission_dir := upload_dir ++ ('/' :: slug)
  if !env.dir_ok then
    ⟨500, db, [], []⟩
  else
  let file_path := submission_dir ++ ('/' :: storage_filename)
  if !(List.isPrefixOf upload_dir file_path) then
    ⟨400, db, [], []⟩
  else if !env.write_ok then
    ⟨500, db, [], []⟩
  else if !env.insert_ok then
    ⟨500, db, [file_path], [file_path]⟩
  else
    let doc : Document :=
      { id := env.doc_id
      , submission_id := submission.id
      , category := query.category
      , classification := query.classification
      , external_url := none
      , external_title := none
      , filename := some storage_filename
      , original_filename := some original_filename
      , file_path := some file_path
      , file_size := some f.data_len
      , mime_type := some content_type
      , description := query.description
      , created_at := now }
    let db1 := { db with documents := db.documents ++ [doc] }
    let db2 := { db1 with audit_log := db1.audit_log ++
        [⟨"document_uploaded", "document", some doc.id, "applicant", none⟩] }
    ⟨201, db2, [file_path], []⟩

/-- Environment of one `add_formal_law` call. -/
structure FormalLawEnv where
  uploader_session : Option Nat
  doc_id : Nat
  insert_ok : Bool
deriving Repr

/-- Model of `add_formal_law` (src/handlers/submissions.rs:595-689): the
inserted document row carries category `formal_law`, classification
`public`, only the external url/title and description, and no file
fields. -/
def add_formal_law (db : Database) (now : Int) (slug : Str)
    (input : CreateFormalLaw) (env : FormalLawEnv) : Resp × Database :=
  match validate_slug slug with
  | .error e => (⟨400, some (.validation e)⟩, db)
  | .ok () =>
  match validate_external_url input.external_url with
  | .error e => (⟨400, some (.validation e)⟩, db)
  | .ok () =>
  match get_submission_by_slug db slug with
  | none => (⟨404, some (.msg ("Submission not found"))⟩, db)
  | some submission =>
  if submission.status ≠ SubmissionStatus.draft
      && !(env.uploader_session == some submission.id) then
    (⟨401, some (.msg ("Inloggen vereist"))⟩, db)
  else if !env.insert_ok then
    (⟨500, some (.msg ("Failed to add formal law"))⟩, db)
  else
    let doc : Document :=
      { id := env.doc_id
      , submission_id := submission.id
      , category := .formal_law
      , classification := .public
      , external_url := some input.external_url
      , external_title := input.external_title
      , filename := none
      , original_filename := none
      , file_path := none
      , file_size := none
      , mime_type := none
      , description := input.description
      , created_at := now }
    let db1 := { db with documents := db.documents ++ [doc] }
    let db2 := { db1 with audit_log := db1.audit_log ++
        [⟨"document_uploaded", "document", some doc.id, "applicant", none⟩] }
    (⟨201, none⟩, db2)

-- ===========================================================================
-- src/handlers/calendar.rs : book_slot
-- ===========================================================================

/-- The WHERE clause of the conditional booking UPDATE: the named slot, still
available, starting strictly in the future. -/
def bookCond (slot_id : Nat) (now : Int) (sl : CalendarSlot) : Bool :=
  sl.id == slot_id && sl.is_available && decide (sl.slot_start > now)

/-- The SET clause of the conditional booking UPDATE. -/
def bookSet (sub_id : Nat) (sl : CalendarSlot) : CalendarSlot :=
  { sl with is_available := false, booked_by_submission := some sub_id }

/-- Model of `book_slot` (src/handlers/calendar.rs:68-175).  The conditional
`UPDATE ... WHERE id = $2 AND is_available = true AND slot_start > NOW()
RETURNING *` becomes a guarded map over the slot table; the handler
succeeds iff some row matched. -/
def book_slot (db : Database) (now : Int) (slug : Str) (slot_id : Nat) :
    Resp × Database :=
  match validate_slug slug with
  | .error e => (⟨400, some (.validation e)⟩, db)
  | .ok () =>
  match db.submissions.find? (fun s => s.slug == slug) with
  | none => (⟨404, some (.msg ("Submission not found"))⟩, db)
  | some submission =>
  match db.calendar_slots.find? (fun sl =>
      sl.booked_by_submission == some submission.id) with
  | some _ =>
    (⟨400, some (.msg ("This submission already has a meeting booked"))⟩, db)
  | none =>
  match db.calendar_slots.find? (bookCond slot_id now) with
  | none =>
    (⟨400, some (.msg ("Slot not available or has already been booked"))⟩, db)
  | some slot =>
    let upd := fun (sl : CalendarSlot) =>
      if bookCond slot_id now sl then bookSet submission.id sl else sl
    let db1 := { db with calendar_slots := db.calendar_slots.map upd }
    let db2 := { db1 with audit_log := db1.audit_log ++
        [⟨"slot_booked", "calendar_slot", some (bookSet submission.id slot).id,
          "applicant", some submission.id⟩] }
    (⟨200, none⟩, db2)

-- ===========================================================================
-- Claim theorems
-- ===========================================================================

/-- C9: `validate_slug` accepts exactly the strings of length 1 through 50
matching the regex `[a-z0-9]([a-z0-9-]*[a-z0-9])?` (lowercase ASCII
letters, digits and hyphens with no leading or trailing hyphen), and every
string outside that language fails with the invalid-slug error. -/
theorem C9_validate_slug_language (s : Str) :
    (validate_slug s = .ok () ↔ (slugRegex s = true ∧ s.length ≤ 50)) ∧
    (¬ (slugRegex s = true ∧ s.length ≤ 50) →
      validate_slug s = .error .invalid_slug) := by
  refine ⟨validate_slug_eq_regex s, fun h => ?_⟩
  rcases validate_slug_shape s with h1 | h1
  · exact absurd ((validate_slug_eq_regex s).mp h1) h
  · exact h1

theorem C9_validate_slug_language_witness :
    validate_slug ("my-submission".data) = .ok () ∧
    validate_slug ("-invalid".data) = .error .invalid_slug :=
  ⟨(C9_validate_slug_language ("my-submission".data)).1.mpr (by decide),
   (C9_validate_slug_language ("-invalid".data)).2 (by decide)⟩

/-- C10: the rate limiter fails open on infrastructure error: when the
count query returns an error, `check_rate_limit_with_max` behaves as if the
count were 0, so with any threshold of at least 1 the request is
allowed. -/
theorem C10_rate_limit_fails_open (e : Unit) (max_attempts : Int) :
    check_rate_limit_with_max (.error e) max_attempts =
      check_rate_limit_with_max (.ok 0) max_attempts ∧
    (1 ≤ max_attempts →
      check_rate_limit_with_max (.error e) max_attempts = true) := by
  unfold check_rate_limit_with_max
  refine ⟨rfl, fun h => ?_⟩
  simpa using h

theorem C10_rate_limit_fails_open_witness :
    check_rate_limit_with_max (.error ()) MAX_LOGIN_ATTEMPTS = true :=
  (C10_rate_limit_fails_open () MAX_LOGIN_ATTEMPTS).2 (by decide)

/-- C2: the code does not implement trusted-proxy gating of the client IP.
`get_client_ip` receives only the request headers (its type has no peer
address and no trusted-proxy parameter) and unconditionally honours
`X-Forwarded-For`, then `X-Real-IP`, falling back to the literal string
`unknown`; a direct untrusted client therefore moves its rate-limit bucket
by setting the header, as the concrete evaluations show. -/
theorem C2_get_client_ip_header_controlled :
    get_client_ip
        ⟨some ("1.2.3.4, 5.6.7.8".data), none, none, none⟩ = "1.2.3.4".data ∧
    get_client_ip
        ⟨some ("1.2.3.4".data), some ("10.0.0.1".data), none, none⟩ =
          "1.2.3.4".data ∧
    get_client_ip ⟨none, some ("10.0.0.1".data), none, none⟩ =
      "10.0.0.1".data ∧
    get_client_ip ⟨none, none, none, none⟩ = "unknown".data := by
  refine ⟨?_, ?_, ?_, ?_⟩ <;> decide

/-- C6 counterexample: with the identity function in place of the token
hash, a request whose session row is expired and a request whose session
row is live but whose admin account is deactivated produce different
`require_admin` results (the error messages differ), so the two
authentication failures are distinguishable. -/
theorem C6_distinct_messages_counterexample :
    require_admin (fun t => t)
        ⟨[], [], [],
         [⟨1, ("alice".data), ("a@x.nl".data), ("h".data), none, true, 0, none⟩],
         [⟨1, 1, ("tok".data), 10, 0, none, none⟩], [], []⟩
        100
        ⟨none, none, some ("rr_admin_session=tok".data), none⟩ ≠
      require_admin (fun t => t)
        ⟨[], [], [],
         [⟨2, ("bob".data), ("b@x.nl".data), ("h".data), none, false, 0, none⟩],
         [⟨1, 2, ("tok".data), 1000, 0, none, none⟩], [], []⟩
        100
        ⟨none, none, some ("rr_admin_session=tok".data), none⟩ := by
  decide

/-- C6 (amended): an expired admin session and a live session whose admin
account is deactivated both fail `require_admin` with HTTP 401, but with
distinct messages (`Session expired or invalid` vs `User not found or
inactive`); `validate_admin_session` (the path behind `GET /api/admin/me`)
does treat the two cases identically, returning `none` for both. -/
theorem C6_uniform_status_distinct_messages
    (hash_token : Str → Str) (db1 db2 : Database) (now : Int)
    (h1 h2 : HeaderMapM) (t1 t2 : Str) (s2 : AdminSession)
    (he1 : extract_session_token h1 = some t1)
    (hs1 : db1.admin_sessions.find? (fun s =>
        s.token_hash == hash_token t1 && decide (s.expires_at > now)) = none)
    (he2 : extract_session_token h2 = some t2)
    (hs2 : db2.admin_sessions.find? (fun s =>
        s.token_hash == hash_token t2 && decide (s.expires_at > now)) = some s2)
    (hu2 : db2.admin_users.find? (fun u =>
        u.id == s2.admin_user_id && u.is_active) = none) :
    require_admin hash_token db1 now h1 =
        .unauthorized ("Session expired or invalid") ∧
    require_admin hash_token db2 now h2 =
        .unauthorized ("User not found or inactive") ∧
    require_admin_status (require_admin hash_token db1 now h1) = 401 ∧
    require_admin_status (require_admin hash_token db2 now h2) = 401 ∧
    validate_admin_session hash_token db1 now h1 = none ∧
    validate_admin_session hash_token db2 now h2 = none := by
  unfold require_admin validate_admin_session require_admin_status
  rw [he1, he2]
  simp only [hs1, hs2, hu2]
  exact ⟨trivial, trivial, trivial, trivial, trivial, trivial⟩

theorem C6_uniform_status_distinct_messages_witness :
    validate_admin_session (fun t => t)
        ⟨[], [], [],
         [⟨1, ("alice".data), ("a@x.nl".data), ("h".data), none, true, 0, none⟩],
         [⟨1, 1, ("tok".data), 10, 0, none, none⟩], [], []⟩
        100
        ⟨none, none, some ("rr_admin_session=tok".data), none⟩ = none :=
  (C6_uniform_status_distinct_messages (fun t => t)
      ⟨[], [], [],
       [⟨1, ("alice".data), ("a@x.nl".data), ("h".data), none, true, 0, none⟩],
       [⟨1, 1, ("tok".data), 10, 0, none, none⟩], [], []⟩
      ⟨[], [], [],
       [⟨2, ("bob".data), ("b@x.nl".data), ("h".data), none, false, 0, none⟩],
       [⟨1, 2, ("tok".data), 1000, 0, none, none⟩], [], []⟩
      100
      ⟨none, none, some ("rr_admin_session=tok".data), none⟩
      ⟨none, none, some ("rr_admin_session=tok".data), none⟩
      ("tok".data) ("tok".data)
      ⟨1, 2, ("tok".data), 1000, 0, none, none⟩
      (by decide) (by decide) (by decide) (by decide) (by decide)).2.2.2.2.2

/-- C4: for every submission addressed by a valid slug whose status is not
`draft`, `update_submission` fails with the conflict message and leaves the
database unchanged, for every combination of supplied fields; and the
applicant-side update can return 200 only when the stored submission is in
`draft`. -/
theorem C4_update_submission_draft_only (db : Database) (slug : Str)
    (input : UpdateSubmission) :
    (∀ s : Submission,
      validate_slug slug = .ok () →
      db.submissions.find? (fun s2 => s2.slug == slug) = some s →
      s.status ≠ SubmissionStatus.draft →
      (update_submission db slug input).1 =
        ⟨400, some (.msg
          ("Cannot update submission that is not in draft status"))⟩ ∧
      (update_submission db slug input).2 = db) ∧
    ((update_submission db slug input).1.status = 200 →
      ∃ s, db.submissions.find? (fun s2 => s2.slug == slug) = some s ∧
        s.status = SubmissionStatus.draft) := by
  constructor
  · intro s hslug hfind hnd
    unfold update_submission
    rw [hslug]
    simp only [hfind]
    rw [if_pos hnd]
    exact ⟨rfl, rfl⟩
  · intro h200
    unfold update_submission at h200
    split at h200
    · simp [Resp.status] at h200
    · split at h200
      · simp [Resp.status] at h200
      · rename_i s hfind
        split at h200
        · simp [Resp.status] at h200
        · rename_i hst
          rw [not_not] at hst
          exact ⟨s, hfind, hst⟩

theorem C4_update_submission_draft_only_witness :
    (update_submission
        ⟨[⟨1, ("abc".data), ("Jan".data), none, ("Org".data), none,
          SubmissionStatus.submitted, none, 0, 0, some 0, 0⟩],
         [], [], [], [], [], []⟩
        ("abc".data) ⟨none, none, none, none, none⟩).1 =
      ⟨400, some (.msg
        ("Cannot update submission that is not in draft status"))⟩ :=
  (((C4_update_submission_draft_only
      ⟨[⟨1, ("abc".data), ("Jan".data), none, ("Org".data), none,
        SubmissionStatus.submitted, none, 0, 0, some 0, 0⟩],
       [], [], [], [], [], []⟩
      ("abc".data) ⟨none, none, none, none, none⟩).1
    ⟨1, ("abc".data), ("Jan".data), none, ("Org".data), none,
      SubmissionStatus.submitted, none, 0, 0, some 0, 0⟩
    (by decide) (by decide) (by decide)).1)

theorem sqlCountRecent_eq_countP (attempts : List RateLimitAttempt)
    (ip ep : Str) (now : Int) :
    sqlCountRecent attempts ip ep now =
      ((attempts.countP (fun a => decide (a.ip_address = ip ∧ a.endpoint = ep ∧
        now - 3600 < a.attempted_at))) : Int) := by
  unfold sqlCountRecent
  congr 1
  rw [List.countP_eq_length_filter]
  congr 1
  apply List.filter_congr
  intro a _
  rw [Bool.eq_iff_iff]
  simp [beq_iff_eq, and_assoc, gt_iff_lt]

/-- C7: a request passes the rate-limit check iff the number of recorded
attempts for its (ip, endpoint) pair in the trailing one-hour window is
strictly below the threshold; login uses threshold 10 and submission
creation threshold 20, and once the window count reaches the threshold the
login and create-submission handlers answer 429 with the database
untouched, for every remaining input (credentials included). -/
theorem C7_rate_limit_thresholds :
    (∀ (attempts : List RateLimitAttempt) (ip ep : Str) (now max_attempts : Int),
      check_rate_limit_with_max (.ok (sqlCountRecent attempts ip ep now))
          max_attempts = true ↔
        ((attempts.countP (fun a => decide (a.ip_address = ip ∧
          a.endpoint = ep ∧ now - 3600 < a.attempted_at))) : Int) <
            max_attempts) ∧
    MAX_LOGIN_ATTEMPTS = 10 ∧ MAX_SUBMISSION_ATTEMPTS = 20 ∧
    (∀ r, check_rate_limit r =
      check_rate_limit_with_max r MAX_LOGIN_ATTEMPTS) ∧
    (∀ (env : AdminLoginEnv) (db : Database) (now : Int)
        (headers : HeaderMapM) (input : LoginRequest),
      10 ≤ ((db.rate_limit_attempts.countP (fun a =>
          decide (a.ip_address = get_client_ip headers ∧
            a.endpoint = "login".data ∧ now - 3600 < a.attempted_at))) : Int) →
      (admin_login env db now headers input).1 =
        ⟨429, some (.msg ("Too many login attempts. Please try again later."))⟩ ∧
      (admin_login env db now headers input).2 = db) ∧
    (∀ (env : CreateSubmissionEnv) (db : Database) (now : Int)
        (headers : HeaderMapM) (input : CreateSubmission),
      20 ≤ ((db.rate_limit_attempts.countP (fun a =>
          decide (a.ip_address = get_client_ip headers ∧
            a.endpoint = "create_submission".data ∧
            now - 3600 < a.attempted_at))) : Int) →
      (create_submission env db now headers input).1 =
        ⟨429, some (.msg ("Too many submissions. Please try again later."))⟩ ∧
      (create_submission env db now headers input).2 = db) := by
  refine ⟨?_, rfl, rfl, fun r => rfl, ?_, ?_⟩
  · intro attempts ip ep now max_attempts
    unfold check_rate_limit_with_max
    rw [sqlCountRecent_eq_countP]
    simp
  · intro env db now headers input hcount
    have hfalse : check_rate_limit
        (.ok (sqlCountRecent db.rate_limit_attempts (get_client_ip headers)
          ("login".data) now)) = false := by
      unfold check_rate_limit check_rate_limit_with_max MAX_LOGIN_ATTEMPTS
      dsimp only
      rw [sqlCountRecent_eq_countP]
      rw [decide_eq_false_iff_not, not_lt]
      dsimp only at hcount
      omega
    unfold admin_login
    dsimp only
    rw [hfalse]
    exact ⟨rfl, rfl⟩
  · intro env db now headers input hcount
    have hfalse : check_rate_limit_with_max
        (.ok (sqlCountRecent db.rate_limit_attempts (get_client_ip headers)
          ("create_submission".data) now)) MAX_SUBMISSION_ATTEMPTS = false := by
      unfold check_rate_limit_with_max MAX_SUBMISSION_ATTEMPTS
      dsimp only
      rw [sqlCountRecent_eq_countP]
      rw [decide_eq_false_iff_not, not_lt]
      dsimp only at hcount
      omega
    unfold create_submission
    dsimp only
    rw [hfalse]
    exact ⟨rfl, rfl⟩

theorem C7_rate_limit_thresholds_witness :
    (admin_login ⟨fun _ => true, fun _ _ => true, fun t => t, [], 0, true⟩
        ⟨[], [], [], [], [],
         List.replicate 10 ⟨("unknown".data), ("login".data), 4999⟩, []⟩
        5000 ⟨none, none, none, none⟩ ⟨("a".data), ("b".data)⟩).1 =
      ⟨429, some (.msg ("Too many login attempts. Please try again later."))⟩ :=
  ((C7_rate_limit_thresholds).2.2.2.2.1
    ⟨fun _ => true, fun _ _ => true, fun t => t, [], 0, true⟩
    ⟨[], [], [], [], [],
     List.replicate 10 ⟨("unknown".data), ("login".data), 4999⟩, []⟩
    5000 ⟨none, none, none, none⟩ ⟨("a".data), ("b".data)⟩
    (by decide)).1

theorem validate_classification_ok_iff (c : DocumentClassification) :
    validate_classification_for_upload c = .ok () ↔
      c ≠ DocumentClassification.restricted := by
  unfold validate_classification_for_upload
  split <;> simp_all

theorem upload_document_restricted_gate (db : Database) (upload_dir : Str)
    (max_upload_size : Nat) (now : Int) (slug : Str)
    (query : UploadDocumentQuery) (env : UploadEnv)
    (h : query.classification = DocumentClassification.restricted) :
    upload_document db upload_dir max_upload_size now slug query env =
      ⟨400, db, [], []⟩ := by
  unfold upload_document
  split
  · rfl
  · have hcls : validate_classification_for_upload query.classification =
        .error .restricted_document := by
      unfold validate_classification_for_upload
      rw [if_pos h]
    rw [hcls]

theorem upload_document_formal_law_gate (db : Database) (upload_dir : Str)
    (max_upload_size : Nat) (now : Int) (slug : Str)
    (query : UploadDocumentQuery) (env : UploadEnv)
    (h : query.category = DocumentCategory.formal_law) :
    upload_document db upload_dir max_upload_size now slug query env =
      ⟨400, db, [], []⟩ := by
  unfold upload_document
  split
  · rfl
  · split
    · rfl
    · rw [if_pos h]

theorem upload_document_new_docs (db : Database) (upload_dir : Str)
    (max_upload_size : Nat) (now : Int) (slug : Str)
    (query : UploadDocumentQuery) (env : UploadEnv) :
    ∀ d ∈ (upload_document db upload_dir max_upload_size
        now slug query env).db.documents,
      d ∈ db.documents ∨
        (d.category = query.category ∧
          d.classification = query.classification) := by
  unfold upload_document
  dsimp only
  repeat' split
  all_goals try exact fun d hd => Or.inl hd
  intro d hd
  rcases List.mem_append.mp hd with h | h
  · exact Or.inl h
  · rw [List.mem_singleton] at h
    subst h
    exact Or.inr ⟨rfl, rfl⟩

theorem add_formal_law_new_docs (db : Database) (now : Int) (slug : Str)
    (input : CreateFormalLaw) (env : FormalLawEnv) :
    ∀ d ∈ (add_formal_law db now slug input env).2.documents,
      d ∈ db.documents ∨
        (d.category = DocumentCategory.formal_law ∧
          d.classification = DocumentClassification.public ∧
          d.filename = none ∧ d.original_filename = none ∧
          d.file_path = none ∧ d.file_size = none ∧ d.mime_type = none ∧
          d.external_url = some input.external_url) := by
  unfold add_formal_law
  dsimp only
  repeat' split
  all_goals try exact fun d hd => Or.inl hd
  intro d hd
  rcases List.mem_append.mp hd with h | h
  · exact Or.inl h
  · rw [List.mem_singleton] at h
    subst h
    exact Or.inr ⟨rfl, rfl, rfl, rfl, rfl, rfl, rfl, rfl⟩

/-- C3: no restricted document is ever persisted.  A restricted
classification is rejected by the upload endpoint with 400 before any file
write or database change; every document the upload endpoint adds carries a
non-restricted classification; and every document the formal-law endpoint
adds carries classification `public`. -/
theorem C3_restricted_never_persisted (db : Database) (upload_dir : Str)
    (max_upload_size : Nat) (now : Int) (slug slugF : Str)
    (query : UploadDocumentQuery) (env : UploadEnv)
    (inputF : CreateFormalLaw) (envF : FormalLawEnv) :
    (query.classification = DocumentClassification.restricted →
      (upload_document db upload_dir max_upload_size
        now slug query env).status = 400 ∧
      (upload_document db upload_dir max_upload_size
        now slug query env).db = db ∧
      (upload_document db upload_dir max_upload_size
        now slug query env).files_written = []) ∧
    (∀ d ∈ (upload_document db upload_dir max_upload_size
        now slug query env).db.documents,
      d ∈ db.documents ∨
        d.classification ≠ DocumentClassification.restricted) ∧
    (∀ d ∈ (add_formal_law db now slugF inputF envF).2.documents,
      d ∈ db.documents ∨
        d.classification = DocumentClassification.public) := by
  refine ⟨fun h => ?_, ?_, ?_⟩
  · rw [upload_document_restricted_gate db upload_dir max_upload_size
      now slug query env h]
    exact ⟨rfl, rfl, rfl⟩
  · intro d hd
    rcases upload_document_new_docs db upload_dir max_upload_size
        now slug query env d hd with h | ⟨hcat, hcls⟩
    · exact Or.inl h
    · by_cases hr : query.classification = DocumentClassification.restricted
      · rw [upload_document_restricted_gate db upload_dir max_upload_size
          now slug query env hr] at hd
        exact Or.inl hd
      · exact Or.inr (by rw [hcls]; exact hr)
  · intro d hd
    rcases add_formal_law_new_docs db now slugF inputF envF d hd
      with h | hshape
    · exact Or.inl h
    · exact Or.inr hshape.2.1

theorem C3_restricted_never_persisted_witness :
    (upload_document ⟨[], [], [], [], [], [], []⟩ [] 100 0 ("abc".data)
        ⟨DocumentCategory.circular, DocumentClassification.restricted, none⟩
        ⟨none, .empty, true, 0, true, true, true⟩).status = 400 :=
  ((C3_restricted_never_persisted ⟨[], [], [], [], [], [], []⟩ [] 100 0
      ("abc".data) ("abc".data)
      ⟨DocumentCategory.circular, DocumentClassification.restricted, none⟩
      ⟨none, .empty, true, 0, true, true, true⟩
      ⟨("https://wetten.overheid.nl/x".data), none, none⟩
      ⟨none, 0, true⟩).1 (by decide)).1

/-- Well-formedness of a formal-law document row: classification `public`
and no file fields. -/
def formal_law_wf (d : Document) : Prop :=
  d.category = DocumentCategory.formal_law →
    d.classification = DocumentClassification.public ∧
    d.filename = none ∧ d.original_filename = none ∧ d.file_path = none ∧
    d.file_size = none ∧ d.mime_type = none

/-- C5: the upload endpoint rejects any file upload in category
`formal_law` without touching storage or the database; the formal-law
endpoint only adds rows with category `formal_law`, classification
`public`, the external url, and no file fields; and the invariant that a
`formal_law` document is public with no file fields is preserved by both
document-creating operations. -/
theorem C5_formal_law_shape (db : Database) (upload_dir : Str)
    (max_upload_size : Nat) (now : Int) (slug slugF : Str)
    (query : UploadDocumentQuery) (env : UploadEnv)
    (inputF : CreateFormalLaw) (envF : FormalLawEnv) :
    (query.category = DocumentCategory.formal_law →
      (upload_document db upload_dir max_upload_size
        now slug query env).status = 400 ∧
      (upload_document db upload_dir max_upload_size
        now slug query env).db = db ∧
      (upload_document db upload_dir max_upload_size
        now slug query env).files_written = []) ∧
    (∀ d ∈ (add_formal_law db now slugF inputF envF).2.documents,
      d ∈ db.documents ∨
        (d.category = DocumentCategory.formal_law ∧
          d.classification = DocumentClassification.public ∧
          d.filename = none ∧ d.original_filename = none ∧
          d.file_path = none ∧ d.file_size = none ∧ d.mime_type = none ∧
          d.external_url = some inputF.external_url)) ∧
    ((∀ d ∈ db.documents, formal_law_wf d) →
      (∀ d ∈ (upload_document db upload_dir max_upload_size
          now slug query env).db.documents, formal_law_wf d) ∧
      (∀ d ∈ (add_formal_law db now slugF inputF envF).2.documents,
        formal_law_wf d)) := by
  refine ⟨fun h => ?_, ?_, fun hinv => ⟨?_, ?_⟩⟩
  · rw [upload_document_formal_law_gate db upload_dir max_upload_size
      now slug query env h]
    exact ⟨rfl, rfl, rfl⟩
  · exact add_formal_law_new_docs db now slugF inputF envF
  · intro d hd
    rcases upload_document_new_docs db upload_dir max_upload_size
        now slug query env d hd with h | ⟨hcat, hcls⟩
    · exact hinv d h
    · by_cases hfl : query.category = DocumentCategory.formal_law
      · rw [upload_document_formal_law_gate db upload_dir max_upload_size
          now slug query env hfl] at hd
        exact hinv d hd
      · intro hdc
        rw [hcat] at hdc
        exact absurd hdc hfl
  · intro d hd
    rcases add_formal_law_new_docs db now slugF inputF envF d hd
      with h | hshape
    · exact hinv d h
    · intro _
      exact ⟨hshape.2.1, hshape.2.2.1, hshape.2.2.2.1, hshape.2.2.2.2.1,
        hshape.2.2.2.2.2.1, hshape.2.2.2.2.2.2.1⟩

theorem C5_formal_law_shape_witness :
    (upload_document ⟨[], [], [], [], [], [], []⟩ [] 100 0 ("abc".data)
        ⟨DocumentCategory.formal_law, DocumentClassification.public, none⟩
        ⟨none, .empty, true, 0, true, true, true⟩).status = 400 :=
  ((C5_formal_law_shape ⟨[], [], [], [], [], [], []⟩ [] 100 0
      ("abc".data) ("abc".data)
      ⟨DocumentCategory.formal_law, DocumentClassification.public, none⟩
      ⟨none, .empty, true, 0, true, true, true⟩
      ⟨("https://wetten.overheid.nl/x".data), none, none⟩
      ⟨none, 0, true⟩).1 (by decide)).1

/-- C8: `validate_filename_extensions` rejects a filename exactly when its
(case-folded) form ends with a blocklisted dangerous extension or contains
a blocklisted extension immediately followed by a dot; and whenever the
uploaded original filename fails that check, the upload endpoint refuses
the request — whatever MIME type was declared — without writing a file or
changing the database. -/
theorem C8_dangerous_extensions (db : Database) (upload_dir : Str)
    (max_upload_size : Nat) (now : Int) (slug : Str)
    (query : UploadDocumentQuery) (env : UploadEnv) :
    (∀ filename : Str,
      validate_filename_extensions filename ≠ .ok () ↔
        ∃ ext ∈ DANGEROUS_EXTENSIONS,
          ext <:+ (filename.map Char.toLower) ∨
          (ext ++ ['.']) <:+: (filename.map Char.toLower)) ∧
    (∀ f : MultipartFile, env.multipart = .field f →
      validate_filename_extensions (f.file_name.getD ("unknown".data)) ≠
        .ok () →
      (upload_document db upload_dir max_upload_size
        now slug query env).status ≠ 201 ∧
      (upload_document db upload_dir max_upload_size
        now slug query env).db = db ∧
      (upload_document db upload_dir max_upload_size
        now slug query env).files_written = []) := by
  constructor
  · intro filename
    rw [Ne, validate_filename_extensions_ok_iff]
    push_neg
    simp only [← or_iff_not_imp_left]
  · intro f hmult hbad
    unfold upload_document
    rw [hmult]
    dsimp only
    repeat' split
    all_goals first
      | exact ⟨by simp, rfl, rfl⟩
      | (exfalso; simp_all)

theorem C8_dangerous_extensions_witness :
    (upload_document ⟨[], [], [], [], [], [], []⟩ [] 100 0 ("abc".data)
        ⟨DocumentCategory.circular, DocumentClassification.public, none⟩
        ⟨none, .field ⟨some ("malware.php".data),
          some ("application/pdf".data), 10⟩,
          true, 0, true, true, true⟩).status ≠ 201 :=
  ((C8_dangerous_extensions ⟨[], [], [], [], [], [], []⟩ [] 100 0
      ("abc".data)
      ⟨DocumentCategory.circular, DocumentClassification.public, none⟩
      ⟨none, .field ⟨some ("malware.php".data),
        some ("application/pdf".data), 10⟩,
        true, 0, true, true, true⟩).2
    ⟨some ("malware.php".data), some ("application/pdf".data), 10⟩
    rfl (by decide)).1

theorem bookCond_iff (slot_id : Nat) (now : Int) (sl : CalendarSlot) :
    bookCond slot_id now sl = true ↔
      sl.id = slot_id ∧ sl.is_available = true ∧ now < sl.slot_start := by
  unfold bookCond
  simp [beq_iff_eq, and_assoc, gt_iff_lt]

/-- C1: for a booking request that resolves a submission, (a) if any slot
already references the submission the call fails with the already-booked
message and the database is unchanged; otherwise (b) the call succeeds iff
the named slot exists, is available and starts strictly in the future, (c)
on success exactly that slot becomes unavailable and booked by the
submission while every other slot is unchanged, and (d) on failure the
caller gets the not-available message and the database is unchanged. -/
theorem C1_book_slot_spec (db : Database) (now : Int) (slug : Str)
    (slot_id : Nat) (submission : Submission)
    (hslug : validate_slug slug = .ok ())
    (hfind : db.submissions.find? (fun s => s.slug == slug) =
      some submission) :
    ((∃ sl ∈ db.calendar_slots,
        sl.booked_by_submission = some submission.id) →
      (book_slot db now slug slot_id).1 =
        ⟨400, some (.msg ("This submission already has a meeting booked"))⟩ ∧
      (book_slot db now slug slot_id).2 = db) ∧
    ((∀ sl ∈ db.calendar_slots,
        sl.booked_by_submission ≠ some submission.id) →
      (((book_slot db now slug slot_id).1.status = 200) ↔
        ∃ sl ∈ db.calendar_slots,
          sl.id = slot_id ∧ sl.is_available = true ∧ now < sl.slot_start) ∧
      ((book_slot db now slug slot_id).1.status = 200 →
        (db.calendar_slots.map (fun sl => sl.id)).Nodup →
        (book_slot db now slug slot_id).2.calendar_slots =
          db.calendar_slots.map (fun sl =>
            if sl.id = slot_id then
              { sl with is_available := false
                      , booked_by_submission := some submission.id }
            else sl)) ∧
      ((book_slot db now slug slot_id).1.status ≠ 200 →
        (book_slot db now slug slot_id).1 =
          ⟨400,
            some (.msg ("Slot not available or has already been booked"))⟩ ∧
        (book_slot db now slug slot_id).2 = db)) := by
  unfold book_slot
  rw [hslug]
  dsimp only
  rw [hfind]
  dsimp only
  cases hbk : db.calendar_slots.find? (fun sl =>
      sl.booked_by_submission == some submission.id) with
  | some sl0 =>
    refine ⟨fun _ => ⟨rfl, rfl⟩, fun hno => ?_⟩
    exfalso
    have hp := List.find?_some hbk
    exact hno sl0 (List.mem_of_find?_eq_some hbk) (by simpa using hp)
  | none =>
    constructor
    · rintro ⟨sl, hsl, hb⟩
      rw [List.find?_eq_none] at hbk
      exact absurd (beq_iff_eq.mpr hb) (hbk sl hsl)
    · intro hno
      cases hbc : db.calendar_slots.find? (bookCond slot_id now) with
      | none =>
        rw [List.find?_eq_none] at hbc
        refine ⟨?_, ?_, fun _ => ⟨rfl, rfl⟩⟩
        · constructor
          · intro h
            simp at h
          · rintro ⟨sl, hsl, hid, hav, hst⟩
            exact absurd ((bookCond_iff slot_id now sl).mpr ⟨hid, hav, hst⟩)
              (hbc sl hsl)
        · intro h
          simp at h
      | some slot =>
        have hcond := List.find?_some hbc
        have hmem := List.mem_of_find?_eq_some hbc
        refine ⟨?_, ?_, fun h => absurd rfl h⟩
        · exact ⟨fun _ => ⟨slot, hmem, (bookCond_iff slot_id now slot).mp hcond⟩,
            fun _ => rfl⟩
        · intro _ hnodup
          show db.calendar_slots.map _ = db.calendar_slots.map _
          apply List.map_congr_left
          intro a ha
          by_cases hid : a.id = slot_id
          · have haslot : a = slot := by
              apply List.inj_on_of_nodup_map hnodup ha hmem
              rw [hid, ((bookCond_iff slot_id now slot).mp hcond).1]
            rw [if_pos (by rw [haslot]; exact hcond), if_pos hid]
            rfl
          · rw [if_neg ?_, if_neg hid]
            intro hc
            exact hid ((bookCond_iff slot_id now a).mp hc).1

theorem C1_book_slot_spec_witness :
    (book_slot
        ⟨[⟨1, ("abc".data), ("Jan".data), none, ("Org".data), none,
          SubmissionStatus.draft, none, 0, 0, none, 0⟩],
         [], [⟨7, 100, 200, true, none, none, none, 0⟩],
         [], [], [], []⟩
        0 ("abc".data) 7).1.status = 200 :=
  (((C1_book_slot_spec
      ⟨[⟨1, ("abc".data), ("Jan".data), none, ("Org".data), none,
        SubmissionStatus.draft, none, 0, 0, none, 0⟩],
       [], [⟨7, 100, 200, true, none, none, none, 0⟩],
       [], [], [], []⟩
      0 ("abc".data) 7
      ⟨1, ("abc".data), ("Jan".data), none, ("Org".data), none,
        SubmissionStatus.draft, none, 0, 0, none, 0⟩
      (by decide) (by decide)).2 (by decide)).1).mpr
    ⟨⟨7, 100, 200, true, none, none, none, 0⟩, (by decide),
      rfl, rfl, (by decide)⟩
